import Mathlib

/-!
Verification of the learner-side prefetch/train/publish pipeline
(`surreal/learner/base.py`): the bounded prefetch queue, the learner core
orchestration state machine, the main training loop with per-phase timing,
the stats derivation, and the class-registration machinery.

Shallow embedding conventions:
* machine time is modelled as an explicit rational clock; each externally
  timed operation (the blocking `queue.get`, the abstract `learn` step,
  the publisher call) is assigned a duration by an environment;
* batches are opaque: the loop only moves them from the queue into `learn`;
* blocking operations are modelled as operations that complete only when
  their precondition holds (a blocked operation leaves the state unchanged
  until it can complete);
* Python exceptions are modelled with `Except` / an error component that
  carries the state at the moment the exception is raised (Python mutations
  made before a `raise` survive the exception).
-/

namespace Surreal

/-- Modelled from the spec: `surreal.utils.TimeRecorder` (imported as
`U.TimeRecorder`, not part of this repository's source). Per the spec's
data model it "accumulates count and total duration per phase" and
"exposes running mean; never resets during process lifetime". A
`with recorder.time():` block records the wall-clock duration of the
block once, at block exit. -/
structure TimeRecorder where
  count : Nat
  total : ℚ
  deriving DecidableEq, Repr

/-- Record one elapsed duration: bump the count, accumulate the total. -/
def TimeRecorder.record (t : TimeRecorder) (d : ℚ) : TimeRecorder :=
  { count := t.count + 1, total := t.total + d }

/-- Running mean of all recorded durations (0 before the first record). -/
def TimeRecorder.avg (t : TimeRecorder) : ℚ :=
  if t.count = 0 then 0 else t.total / t.count

/-- A fresh recorder: nothing recorded yet. -/
def TimeRecorder.init : TimeRecorder := { count := 0, total := 0 }

/-- Observable events of the learner core's main loop, in program order:
a `dequeue` of one batch from the prefetch queue, one call of the
caller-supplied `learn(batch)`, and one `publish_parameter(i, message)`
call (which forwards to `ParameterPublisher.publish`). -/
inductive Event where
  | dequeue : Event
  | learn : Event
  | publish (iteration : Nat) (message : String) : Event
  deriving DecidableEq, Repr

/-- Environment for the main loop: the wall-clock duration of each timed
phase at iteration `i`, and the auxiliary value (e.g. a td-error) returned
by the caller-supplied `learn` at iteration `i`. -/
structure MainLoopEnv where
  dequeueDur : Nat → ℚ
  learnDur : Nat → ℚ
  publishDur : Nat → ℚ
  learnRet : Nat → Int

/-- The timer-carrying part of `PrefetchBatchQueue`: `self.timer`, the
`U.TimeRecorder` created in `PrefetchBatchQueue.__init__` and used by
`dequeue` (base.py lines 34, 60-65). -/
structure PrefetchQueueTimed where
  timer : TimeRecorder
  deriving DecidableEq, Repr

/-- Main-loop state of `LearnerCore`: the global clock, the prefetch
queue (whose timer times `dequeue`), the two recorders created in
`LearnerCore.__init__` (`learn_timer`, `iter_timer`, base.py lines
109-111), and the trace of observable events so far. -/
structure CoreState where
  clock : ℚ
  prefetch_queue : PrefetchQueueTimed
  learn_timer : TimeRecorder
  iter_timer : TimeRecorder
  events : List Event
  deriving DecidableEq, Repr

/-- base.py line 110: `self.fetch_timer = self._prefetch_queue.timer` —
the learner core's fetch timer IS the queue's own timer. -/
def CoreState.fetch_timer (s : CoreState) : TimeRecorder :=
  s.prefetch_queue.timer

/-- State at entry of `main_loop`: clock at 0, all recorders fresh, no
events. -/
def CoreState.init : CoreState :=
  { clock := 0
    prefetch_queue := { timer := TimeRecorder.init }
    learn_timer := TimeRecorder.init
    iter_timer := TimeRecorder.init
    events := [] }

/-- `PrefetchBatchQueue.dequeue` (base.py lines 60-65): the whole body is
`with self.timer.time(): return self._queue.get(block=True)`, so the
queue's timer records exactly the wall-clock time the calling (consumer)
thread spends inside the blocking `get`. The clock advances by that
duration. -/
def PrefetchBatchQueue.dequeueStep (env : MainLoopEnv) (i : Nat)
    (s : CoreState) : CoreState :=
  let d := env.dequeueDur i
  { s with
    clock := s.clock + d
    prefetch_queue := { timer := s.prefetch_queue.timer.record d }
    events := s.events ++ [Event.dequeue] }

/-- The caller-supplied `learn(batch)` step (abstract in `LearnerCore`,
base.py lines 130-140): consumes wall-clock time and returns an auxiliary
value (its docstring: "td_error or other values for prioritized replay").
The returned pair is (state after the call, returned value). -/
def LearnerCore.learnStep (env : MainLoopEnv) (i : Nat)
    (s : CoreState) : CoreState × Int :=
  ({ s with
      clock := s.clock + env.learnDur i
      events := s.events ++ [Event.learn] },
   env.learnRet i)

/-- `LearnerCore.publish_parameter(i, message)` (base.py lines 155-163):
forwards to `self._ps_publisher.publish(iteration, message=message)`;
consumes wall-clock time and emits a publish event. -/
def LearnerCore.publishStep (env : MainLoopEnv) (i : Nat) (msg : String)
    (s : CoreState) : CoreState :=
  { s with
    clock := s.clock + env.publishDur i
    events := s.events ++ [Event.publish i msg] }

/-- One iteration of `LearnerCore.main_loop` (base.py lines 172-180):

    for i, batch in enumerate(self.fetch_iterator()):
        with self.iter_timer.time():
            with self.learn_timer.time():
                self.learn(batch)
            self.publish_parameter(i, message='batch '+str(i))

The `for` statement advances the generator first: `fetch_iterator` yields
`fetch_batch()` = `self._prefetch_queue.dequeue()`, so the dequeue of
iteration `i` happens BEFORE the `with self.iter_timer.time():` block is
entered. `iter_timer` then records the elapsed time of the block body
(learn + publish). `learn_timer` records the elapsed time of the inner
block (learn only). The value returned by `self.learn(batch)` is not
bound to anything (statement expression), i.e. it is discarded. -/
def LearnerCore.mainLoopIter (env : MainLoopEnv) (i : Nat)
    (s : CoreState) : CoreState :=
  let s1 := PrefetchBatchQueue.dequeueStep env i s
  let iterStart := s1.clock
  let learnStart := s1.clock
  let r := LearnerCore.learnStep env i s1
  let s2 := r.1
  let s3 := { s2 with learn_timer := s2.learn_timer.record (s2.clock - learnStart) }
  let s4 := LearnerCore.publishStep env i ("batch " ++ toString i) s3
  { s4 with iter_timer := s4.iter_timer.record (s4.clock - iterStart) }

/-- State of `LearnerCore.main_loop` after the first `n` iterations
(the loop itself never terminates; `n` is an observation point). -/
def LearnerCore.mainLoopN (env : MainLoopEnv) : Nat → CoreState
  | 0 => CoreState.init
  | n + 1 => LearnerCore.mainLoopIter env n (LearnerCore.mainLoopN env n)

/-- The event trace one iteration of the loop appends. -/
def iterTrace (i : Nat) : List Event :=
  [Event.dequeue, Event.learn, Event.publish i ("batch " ++ toString i)]

lemma mainLoopIter_events (env : MainLoopEnv) (i : Nat) (s : CoreState) :
    (LearnerCore.mainLoopIter env i s).events = s.events ++ iterTrace i := by
  simp [LearnerCore.mainLoopIter, PrefetchBatchQueue.dequeueStep,
    LearnerCore.learnStep, LearnerCore.publishStep, iterTrace]

lemma mainLoopIter_fetch_timer (env : MainLoopEnv) (i : Nat) (s : CoreState) :
    (LearnerCore.mainLoopIter env i s).prefetch_queue.timer =
      s.prefetch_queue.timer.record (env.dequeueDur i) := by
  simp [LearnerCore.mainLoopIter, PrefetchBatchQueue.dequeueStep,
    LearnerCore.learnStep, LearnerCore.publishStep]

lemma mainLoopIter_iter_timer (env : MainLoopEnv) (i : Nat) (s : CoreState) :
    (LearnerCore.mainLoopIter env i s).iter_timer =
      s.iter_timer.record (env.learnDur i + env.publishDur i) := by
  simp [LearnerCore.mainLoopIter, PrefetchBatchQueue.dequeueStep,
    LearnerCore.learnStep, LearnerCore.publishStep]
  ring_nf

lemma mainLoopIter_clock (env : MainLoopEnv) (i : Nat) (s : CoreState) :
    (LearnerCore.mainLoopIter env i s).clock =
      s.clock + (env.dequeueDur i + env.learnDur i + env.publishDur i) := by
  simp [LearnerCore.mainLoopIter, PrefetchBatchQueue.dequeueStep,
    LearnerCore.learnStep, LearnerCore.publishStep]
  ring

/-- Environment in which fetching is slow: the consumer blocks 5 time
units in `dequeue`, then `learn` takes 1 and `publish` takes 1. -/
def envSlowFetch : MainLoopEnv :=
  { dequeueDur := fun _ => 5
    learnDur := fun _ => 1
    publishDur := fun _ => 1
    learnRet := fun _ => 0 }

/-- C1: After `N` main-loop iterations the event trace is exactly
`dequeue, learn, publish 0 "batch 0", dequeue, learn, publish 1 "batch 1",
…`: `publish` has been called exactly `N` times, the `i`-th call carrying
iteration index `i` (indices `0..N-1` in strictly increasing order) and
message `"batch i"`, with exactly one dequeue and one `learn` call
preceding each publish within its iteration. -/
theorem mainLoop_publishes_in_order (env : MainLoopEnv) (N : Nat) :
    (LearnerCore.mainLoopN env N).events =
      (List.range N).flatMap iterTrace := by
  induction N with
  | zero => simp [LearnerCore.mainLoopN, CoreState.init]
  | succ n ih =>
      rw [LearnerCore.mainLoopN, mainLoopIter_events, ih, List.range_succ]
      simp

/-- C2 (divergence witness): with the dequeue of iteration 0 taking 5
time units, `learn` 1 and `publish` 1, one full cycle of
dequeue → learn → publish takes 7 time units of wall clock, of which the
fetch timer observes the 5 spent in `dequeue`; but the `iteration` timer
records only 2 — the dequeue happens inside the generator
`enumerate(self.fetch_iterator())`, before the `with self.iter_timer.time():`
block is entered, so the recorded iteration duration excludes the time the
training thread spends in `dequeue()`. -/
theorem iter_timer_excludes_dequeue_time :
    (LearnerCore.mainLoopN envSlowFetch 1).clock = 7 ∧
    (LearnerCore.mainLoopN envSlowFetch 1).fetch_timer.total = 5 ∧
    (LearnerCore.mainLoopN envSlowFetch 1).iter_timer.total = 2 ∧
    (LearnerCore.mainLoopN envSlowFetch 1).iter_timer.total ≠ 7 := by
  have h1 : LearnerCore.mainLoopN envSlowFetch 1 =
      LearnerCore.mainLoopIter envSlowFetch 0 CoreState.init := rfl
  refine ⟨?_, ?_, ?_, ?_⟩ <;>
    rw [h1] <;>
    first
      | (rw [mainLoopIter_clock]
         norm_num [envSlowFetch, CoreState.init])
      | (unfold CoreState.fetch_timer
         rw [mainLoopIter_fetch_timer]
         norm_num [envSlowFetch, CoreState.init, TimeRecorder.init,
           TimeRecorder.record])
      | (rw [mainLoopIter_iter_timer]
         norm_num [envSlowFetch, CoreState.init, TimeRecorder.init,
           TimeRecorder.record])

/-- C7: the learner core's `fetch_timer` is the very `TimeRecorder` owned
by the prefetch queue and updated by its `dequeue` (base.py line 110), and
after `N` iterations it has recorded exactly `N` durations whose total is
exactly the wall-clock time the consumer (training) thread spent inside
`dequeue()` — the sum of the per-iteration dequeue durations. -/
theorem fetch_timer_measures_consumer_dequeue (env : MainLoopEnv) (N : Nat) :
    (LearnerCore.mainLoopN env N).fetch_timer =
      (LearnerCore.mainLoopN env N).prefetch_queue.timer ∧
    (LearnerCore.mainLoopN env N).fetch_timer.count = N ∧
    (LearnerCore.mainLoopN env N).fetch_timer.total =
      ∑ i ∈ Finset.range N, env.dequeueDur i := by
  refine ⟨rfl, ?_⟩
  induction N with
  | zero => simp [LearnerCore.mainLoopN, CoreState.init, CoreState.fetch_timer,
      TimeRecorder.init]
  | succ n ih =>
      rw [LearnerCore.mainLoopN]
      unfold CoreState.fetch_timer at ih ⊢
      rw [mainLoopIter_fetch_timer, Finset.sum_range_succ]
      exact ⟨by simp [TimeRecorder.record, ih.1],
        by simp [TimeRecorder.record, ih.2]⟩

/-- Two environments that agree on every duration but disagree on the
value returned by `learn`: in `envRetA` the learn step returns 42, in
`envRetB` it returns 7. -/
def envRetA : MainLoopEnv :=
  { dequeueDur := fun _ => 1
    learnDur := fun _ => 1
    publishDur := fun _ => 1
    learnRet := fun _ => 42 }

def envRetB : MainLoopEnv :=
  { dequeueDur := fun _ => 1
    learnDur := fun _ => 1
    publishDur := fun _ => 1
    learnRet := fun _ => 7 }

/-- C8 (counterexample): `main_loop` executes `self.learn(batch)` as a
bare statement, so the returned value is discarded, not made available:
two runs whose `learn` returns different values (42 vs 7) leave the loop
in literally identical states after the iteration — no observable of the
core retains the returned value. -/
theorem learn_return_value_discarded :
    envRetA.learnRet 0 ≠ envRetB.learnRet 0 ∧
    LearnerCore.mainLoopN envRetA 1 = LearnerCore.mainLoopN envRetB 1 := by
  refine ⟨by decide, ?_⟩
  show LearnerCore.mainLoopIter envRetA 0 CoreState.init =
    LearnerCore.mainLoopIter envRetB 0 CoreState.init
  simp [LearnerCore.mainLoopIter, PrefetchBatchQueue.dequeueStep,
    LearnerCore.learnStep, LearnerCore.publishStep, envRetA, envRetB]

/-- C8 (amended): the core neither interprets nor retains the value
returned by the caller-supplied `learn(batch)`: the entire main-loop
state after any number of iterations depends only on the phase durations,
never on the values `learn` returns. -/
theorem mainLoop_independent_of_learn_return (env env' : MainLoopEnv)
    (hd : env.dequeueDur = env'.dequeueDur)
    (hl : env.learnDur = env'.learnDur)
    (hp : env.publishDur = env'.publishDur) (N : Nat) :
    LearnerCore.mainLoopN env N = LearnerCore.mainLoopN env' N := by
  induction N with
  | zero => rfl
  | succ n ih =>
      rw [LearnerCore.mainLoopN, LearnerCore.mainLoopN, ih]
      simp [LearnerCore.mainLoopIter, PrefetchBatchQueue.dequeueStep,
        LearnerCore.learnStep, LearnerCore.publishStep, hd, hl, hp]

/-- Witness for the amended C8 theorem at the concrete environments
`envRetA`, `envRetB` and one iteration. -/
theorem mainLoop_independent_of_learn_return_witness :
    envRetA.dequeueDur = envRetB.dequeueDur ∧
    envRetA.learnDur = envRetB.learnDur ∧
    envRetA.publishDur = envRetB.publishDur ∧
    LearnerCore.mainLoopN envRetA 1 = LearnerCore.mainLoopN envRetB 1 :=
  ⟨rfl, rfl, rfl, mainLoop_independent_of_learn_return envRetA envRetB rfl rfl rfl 1⟩

/-! ### The prefetch queue buffer (`queue.Queue` contents)

`PrefetchBatchQueue` wraps a `queue.Queue(maxsize=max_size)`:
`_enqueue` does a blocking `put`, `dequeue` a blocking `get`, `__len__`
returns `qsize()`. We model the buffer contents as a list (oldest first)
and an interleaving of producer/consumer operations as a list of
operations; a blocked operation does not complete and leaves the state
unchanged (it is retried as a later element of the interleaving). Per
Python's `queue.Queue`, a `maxsize` of zero means an infinite queue;
the construction contract requires `max_prefetch_batch_queue > 0`. -/

/-- One attempted operation on the prefetch queue: a producer
`_enqueue(item)` (blocking `put`) or the consumer's `dequeue()`
(blocking `get`). -/
inductive QueueOp (α : Type) where
  | enq (x : α) : QueueOp α
  | deq : QueueOp α

/-- Queue state together with the history of completed operations:
`buffer` is the current `queue.Queue` contents (oldest first),
`enqueued` the items whose `put` completed, in order, and `dequeued`
the items returned by completed `get`s, in order. -/
structure QueueTrace (α : Type) where
  buffer : List α
  enqueued : List α
  dequeued : List α

/-- `__len__` (base.py lines 67-68): `self._queue.qsize()`, the number of
items currently buffered. -/
def PrefetchBatchQueue.len (s : QueueTrace α) : Nat :=
  s.buffer.length

/-- One step of the queue: `put` appends at the back and completes only
when the queue is not full (`maxsize = 0` meaning unbounded, per
`queue.Queue`); `get` removes and returns the front (oldest) item and
completes only when the queue is not empty. A blocked operation changes
nothing. -/
def queueStep (cap : Nat) (s : QueueTrace α) : QueueOp α → QueueTrace α
  | QueueOp.enq x =>
      if cap = 0 ∨ s.buffer.length < cap then
        { buffer := s.buffer ++ [x]
          enqueued := s.enqueued ++ [x]
          dequeued := s.dequeued }
      else s
  | QueueOp.deq =>
      match s.buffer with
      | [] => s
      | y :: rest =>
          { buffer := rest
            enqueued := s.enqueued
            dequeued := s.dequeued ++ [y] }

/-- Run an interleaving of queue operations from the empty queue of
capacity `cap` (`queue.Queue(maxsize=cap)` as built in
`PrefetchBatchQueue.__init__`). -/
def queueRun (cap : Nat) (ops : List (QueueOp α)) : QueueTrace α :=
  ops.foldl (queueStep cap) { buffer := [], enqueued := [], dequeued := [] }

lemma queueStep_fifo_inv (cap : Nat) (s : QueueTrace α) (op : QueueOp α)
    (h : s.enqueued = s.dequeued ++ s.buffer) :
    (queueStep cap s op).enqueued =
      (queueStep cap s op).dequeued ++ (queueStep cap s op).buffer := by
  cases op with
  | enq x =>
      by_cases hc : cap = 0 ∨ s.buffer.length < cap <;>
        simp [queueStep, hc, h]
  | deq =>
      cases hb : s.buffer with
      | nil => simpa [queueStep, hb] using h
      | cons y rest =>
          simp only [queueStep, hb]
          rw [h, hb]
          simp

lemma queueRun_fifo_aux (cap : Nat) (ops : List (QueueOp α)) :
    ∀ s : QueueTrace α, s.enqueued = s.dequeued ++ s.buffer →
      (ops.foldl (queueStep cap) s).enqueued =
        (ops.foldl (queueStep cap) s).dequeued ++
          (ops.foldl (queueStep cap) s).buffer := by
  induction ops with
  | nil => intro s h; simpa using h
  | cons op rest ih =>
      intro s h
      exact ih (queueStep cap s op) (queueStep_fifo_inv cap s op h)

/-- C4: the prefetch queue is FIFO. For every interleaving of enqueue
and dequeue operations, the completed enqueues decompose as the completed
dequeues followed by the current buffer: items are dequeued in exactly
the order they were enqueued. Moreover each completed `dequeue()` returns
the oldest item currently in the queue (the buffer's head). -/
theorem prefetch_queue_fifo (cap : Nat) (ops : List (QueueOp α)) :
    ((queueRun cap ops).enqueued =
      (queueRun cap ops).dequeued ++ (queueRun cap ops).buffer) ∧
    (∀ (s : QueueTrace α) (x : α) (rest : List α), s.buffer = x :: rest →
      (queueStep cap s QueueOp.deq).dequeued = s.dequeued ++ [x] ∧
      (queueStep cap s QueueOp.deq).buffer = rest) := by
  constructor
  · exact queueRun_fifo_aux cap ops _ rfl
  · intro s x rest hb
    constructor <;> simp [queueStep, hb]

lemma queueStep_len_le (cap : Nat) (hcap : 0 < cap) (s : QueueTrace α)
    (op : QueueOp α) (h : s.buffer.length ≤ cap) :
    (queueStep cap s op).buffer.length ≤ cap := by
  cases op with
  | enq x =>
      by_cases hc : cap = 0 ∨ s.buffer.length < cap
      · rcases hc with hc | hc
        · omega
        · simp only [queueStep, if_pos (Or.inr hc), List.length_append,
            List.length_cons, List.length_nil]
          omega
      · simpa [queueStep, hc] using h
  | deq =>
      cases hb : s.buffer with
      | nil => simp [queueStep, hb]
      | cons y rest =>
          simp only [queueStep, hb]
          rw [hb] at h
          simp at h ⊢
          omega

lemma queueRun_len_aux (cap : Nat) (hcap : 0 < cap)
    (ops : List (QueueOp α)) :
    ∀ s : QueueTrace α, s.buffer.length ≤ cap →
      (ops.foldl (queueStep cap) s).buffer.length ≤ cap := by
  induction ops with
  | nil => intro s h; simpa using h
  | cons op rest ih =>
      intro s h
      exact ih (queueStep cap s op) (queueStep_len_le cap hcap s op h)

/-- C5: for a queue constructed with positive capacity
`max_prefetch_batch_queue` (the construction contract requires it to be
positive; Python's `queue.Queue` treats `maxsize = 0` as unbounded), the
value reported by `__len__` after any interleaving of enqueue and dequeue
operations satisfies `0 ≤ length ≤ capacity`. -/
theorem prefetch_queue_len_bounds (cap : Nat) (hcap : 0 < cap)
    (ops : List (QueueOp α)) :
    0 ≤ PrefetchBatchQueue.len (queueRun cap ops) ∧
      PrefetchBatchQueue.len (queueRun cap ops) ≤ cap := by
  refine ⟨Nat.zero_le _, ?_⟩
  exact queueRun_len_aux cap hcap ops _ (by simp)

/-- A concrete queue state: two items buffered, none dequeued yet. -/
def qsTwoItems : QueueTrace Nat :=
  { buffer := [10, 20], enqueued := [10, 20], dequeued := [] }

/-- A concrete interleaving at capacity 2: three enqueues (the third
blocked by the full queue) and one dequeue. -/
def opsFifoDemo : List (QueueOp Nat) :=
  [QueueOp.enq 10, QueueOp.enq 20, QueueOp.enq 30, QueueOp.deq]

/-- Witness for C4's oldest-item conjunct at the concrete state
`qsTwoItems`: the dequeue returns 10, the oldest buffered item. -/
theorem prefetch_queue_fifo_witness :
    ((queueRun 2 opsFifoDemo).enqueued =
      (queueRun 2 opsFifoDemo).dequeued ++ (queueRun 2 opsFifoDemo).buffer) ∧
    (qsTwoItems.buffer = 10 :: [20] →
      (queueStep 2 qsTwoItems QueueOp.deq).dequeued =
          qsTwoItems.dequeued ++ [10] ∧
        (queueStep 2 qsTwoItems QueueOp.deq).buffer = [20]) :=
  ⟨(prefetch_queue_fifo 2 opsFifoDemo).1,
   fun h => (prefetch_queue_fifo 2 opsFifoDemo).2 qsTwoItems 10 [20] h⟩

/-- Witness for C5 at capacity 2 with the interleaving `opsFifoDemo`. -/
theorem prefetch_queue_len_bounds_witness :
    0 < 2 ∧
    (0 ≤ PrefetchBatchQueue.len (queueRun 2 opsFifoDemo) ∧
      PrefetchBatchQueue.len (queueRun 2 opsFifoDemo) ≤ 2) :=
  ⟨by decide, prefetch_queue_len_bounds 2 (by decide) opsFifoDemo⟩

/-! ### One-time initialization (`LearnerCore._initialize`,
`PrefetchBatchQueue.start_enqueue_thread`) -/

/-- Control state of `PrefetchBatchQueue`'s producer side:
`enqueue_thread` is whether `self._enqueue_thread` is set (it starts as
`None`, base.py line 32, and is set to `self._client` by a successful
`start_enqueue_thread`), and `client_starts` counts completed
`self._client.start()` calls — i.e. how many times the fetch background
activity has been started (the `ZmqClientPool` itself is external to this
repository; per the spec it is the fetch pool whose `start()` spawns the
background fetch task). -/
structure PrefetchQueueCtl where
  enqueue_thread : Bool
  client_starts : Nat
  deriving DecidableEq, Repr

/-- `PrefetchBatchQueue.start_enqueue_thread` (base.py lines 39-58):

    if self._enqueue_thread is not None:
        raise RuntimeError('Enqueue thread is already running')
    self._enqueue_thread = self._client
    self._client.start()
    return self._enqueue_thread

The guard is checked before anything else, so a failing call raises
without starting the client. -/
def PrefetchBatchQueue.start_enqueue_thread (s : PrefetchQueueCtl) :
    Except String PrefetchQueueCtl :=
  if s.enqueue_thread then Except.error "Enqueue thread is already running"
  else Except.ok { enqueue_thread := true, client_starts := s.client_starts + 1 }

/-- Control state of `LearnerCore` for initialization: the identity of
the currently bound `ParameterPublisher` (`self._ps_publisher`, `none`
from `__init__` line 100 until `_initialize` runs; publisher objects are
numbered by construction order so distinct constructions are distinct
values), the number of `ParameterPublisher` constructions, the number of
`self.module_dict()` calls, and the prefetch queue's control state. -/
structure LearnerCoreCtl where
  ps_publisher : Option Nat
  publisher_ctor_calls : Nat
  module_dict_calls : Nat
  prefetch : PrefetchQueueCtl
  deriving DecidableEq, Repr

/-- The `Constructed` state right after `LearnerCore.__init__`:
no publisher bound, no enqueue thread, nothing started. -/
def LearnerCoreCtl.constructed : LearnerCoreCtl :=
  { ps_publisher := none
    publisher_ctor_calls := 0
    module_dict_calls := 0
    prefetch := { enqueue_thread := false, client_starts := 0 } }

/-- `LearnerCore._initialize` (base.py lines 113-121):

    self._ps_publisher = ParameterPublisher(
        port=self._ps_port,
        module_dict=self.module_dict()
    )
    self._prefetch_queue.start_enqueue_thread()

First `module_dict()` is called and a fresh `ParameterPublisher` is
constructed and assigned to `self._ps_publisher`; only then is
`start_enqueue_thread()` called. If the latter raises, the exception
propagates, but the assignment to `self._ps_publisher` has already
happened: the result pairs the possible error with the state at the
moment control leaves the method. -/
def LearnerCore.initCore (s : LearnerCoreCtl) :
    Option String × LearnerCoreCtl :=
  let s1 : LearnerCoreCtl :=
    { s with
      module_dict_calls := s.module_dict_calls + 1
      publisher_ctor_calls := s.publisher_ctor_calls + 1
      ps_publisher := some s.publisher_ctor_calls }
  match PrefetchBatchQueue.start_enqueue_thread s1.prefetch with
  | Except.error e => (some e, s1)
  | Except.ok q => (none, { s1 with prefetch := q })

/-- C3: from any state whose enqueue thread is not yet running, the first
initialization call succeeds; invoking the one-time initialization a
second time fails synchronously with the configuration error
"Enqueue thread is already running", and the failing call does not start
a second fetch background task (the count of `client.start()` calls is
unchanged). -/
theorem double_init_fails_without_second_start (s : LearnerCoreCtl)
    (h : s.prefetch.enqueue_thread = false) :
    (LearnerCore.initCore s).1 = none ∧
    (LearnerCore.initCore s).2.prefetch.client_starts =
      s.prefetch.client_starts + 1 ∧
    (LearnerCore.initCore (LearnerCore.initCore s).2).1 =
      some "Enqueue thread is already running" ∧
    (LearnerCore.initCore (LearnerCore.initCore s).2).2.prefetch.client_starts
      = (LearnerCore.initCore s).2.prefetch.client_starts := by
  simp [LearnerCore.initCore, PrefetchBatchQueue.start_enqueue_thread, h]

/-- Witness for C3 at the freshly constructed learner core state. -/
theorem double_init_fails_without_second_start_witness :
    LearnerCoreCtl.constructed.prefetch.enqueue_thread = false ∧
    ((LearnerCore.initCore LearnerCoreCtl.constructed).1 = none ∧
     (LearnerCore.initCore LearnerCoreCtl.constructed).2.prefetch.client_starts
       = LearnerCoreCtl.constructed.prefetch.client_starts + 1 ∧
     (LearnerCore.initCore
        (LearnerCore.initCore LearnerCoreCtl.constructed).2).1 =
       some "Enqueue thread is already running" ∧
     (LearnerCore.initCore
        (LearnerCore.initCore LearnerCoreCtl.constructed).2).2.prefetch.client_starts
       = (LearnerCore.initCore LearnerCoreCtl.constructed).2.prefetch.client_starts) :=
  ⟨rfl, double_init_fails_without_second_start LearnerCoreCtl.constructed rfl⟩

/-- C9: the second initialization call is not state-preserving. Starting
from any state with no enqueue thread running, after a first successful
call the second call fails — but only after it has already called
`module_dict()` again and replaced the bound `ParameterPublisher` with a
freshly constructed one: the publisher binding at the moment the error
propagates differs from the one installed by the first call. -/
theorem second_init_mutates_publisher_before_failing (s : LearnerCoreCtl)
    (h : s.prefetch.enqueue_thread = false) :
    (LearnerCore.initCore (LearnerCore.initCore s).2).1.isSome = true ∧
    (LearnerCore.initCore (LearnerCore.initCore s).2).2.ps_publisher ≠
      (LearnerCore.initCore s).2.ps_publisher ∧
    (LearnerCore.initCore (LearnerCore.initCore s).2).2.module_dict_calls =
      (LearnerCore.initCore s).2.module_dict_calls + 1 := by
  simp [LearnerCore.initCore, PrefetchBatchQueue.start_enqueue_thread, h]

/-- Witness for C9 at the freshly constructed learner core state. -/
theorem second_init_mutates_publisher_before_failing_witness :
    LearnerCoreCtl.constructed.prefetch.enqueue_thread = false ∧
    ((LearnerCore.initCore
        (LearnerCore.initCore LearnerCoreCtl.constructed).2).1.isSome = true ∧
     (LearnerCore.initCore
        (LearnerCore.initCore LearnerCoreCtl.constructed).2).2.ps_publisher ≠
       (LearnerCore.initCore LearnerCoreCtl.constructed).2.ps_publisher ∧
     (LearnerCore.initCore
        (LearnerCore.initCore LearnerCoreCtl.constructed).2).2.module_dict_calls
       = (LearnerCore.initCore LearnerCoreCtl.constructed).2.module_dict_calls
         + 1) :=
  ⟨rfl,
   second_init_mutates_publisher_before_failing LearnerCoreCtl.constructed rfl⟩

/-! ### Stats derivation (`Learner.update_tensorplex`, base.py 232-251) -/

/-- The additive smoothing constant `1e-6` of `update_tensorplex`,
as an exact rational. -/
def timingEps : ℚ := 1 / 1000000

/-- base.py lines 238, 240, 248:
`learn_time = self.learn_timer.avg + 1e-6`,
`iter_time = self.iter_timer.avg + 1e-6`,
`min(learn_time / iter_time * 100, 100)` — percent of time spent on
learning. -/
def compute_bound_percent (learn_avg iter_avg : ℚ) : ℚ :=
  let learn_time := learn_avg + timingEps
  let iter_time := iter_avg + timingEps
  min (learn_time / iter_time * 100) 100

/-- base.py lines 239, 240, 250:
`fetch_time = self.fetch_timer.avg + 1e-6`,
`min(fetch_time / iter_time * 100, 100)` — percent of time spent on
IO. -/
def io_bound_percent (fetch_avg iter_avg : ℚ) : ℚ :=
  let fetch_time := fetch_avg + timingEps
  let iter_time := iter_avg + timingEps
  min (fetch_time / iter_time * 100) 100

/-- C6: for all nonnegative running averages, the stats derivation
computes `min((learn_avg + ε)/(iter_avg + ε) * 100, 100)` and
`min((fetch_avg + ε)/(iter_avg + ε) * 100, 100)` with the small additive
epsilon `1e-6`; the denominator is never zero, each result lies in
`[0, 100]`, and the two values need not sum to 100 (witnessed at all
averages zero, where both are 100). -/
theorem stats_percents_clamped (learn_avg fetch_avg iter_avg : ℚ)
    (hl : 0 ≤ learn_avg) (hf : 0 ≤ fetch_avg) (hi : 0 ≤ iter_avg) :
    compute_bound_percent learn_avg iter_avg =
      min ((learn_avg + timingEps) / (iter_avg + timingEps) * 100) 100 ∧
    io_bound_percent fetch_avg iter_avg =
      min ((fetch_avg + timingEps) / (iter_avg + timingEps) * 100) 100 ∧
    iter_avg + timingEps ≠ 0 ∧
    (0 ≤ compute_bound_percent learn_avg iter_avg ∧
      compute_bound_percent learn_avg iter_avg ≤ 100) ∧
    (0 ≤ io_bound_percent fetch_avg iter_avg ∧
      io_bound_percent fetch_avg iter_avg ≤ 100) ∧
    ∃ l f i : ℚ, 0 ≤ l ∧ 0 ≤ f ∧ 0 ≤ i ∧
      compute_bound_percent l i + io_bound_percent f i ≠ 100 := by
  have heps : (0 : ℚ) < timingEps := by norm_num [timingEps]
  have hiter : (0 : ℚ) < iter_avg + timingEps := by linarith
  refine ⟨rfl, rfl, ne_of_gt hiter, ⟨?_, ?_⟩, ⟨?_, ?_⟩, 0, 0, 0, le_refl 0,
    le_refl 0, le_refl 0, ?_⟩
  · have : (0 : ℚ) ≤ (learn_avg + timingEps) / (iter_avg + timingEps) * 100 := by
      positivity
    exact le_min this (by norm_num)
  · exact min_le_right _ _
  · have : (0 : ℚ) ≤ (fetch_avg + timingEps) / (iter_avg + timingEps) * 100 := by
      positivity
    exact le_min this (by norm_num)
  · exact min_le_right _ _
  · norm_num [compute_bound_percent, io_bound_percent, timingEps]

/-- Witness for C6 at all three averages zero: both percents are 100. -/
theorem stats_percents_clamped_witness :
    (0 ≤ (0 : ℚ)) ∧
    (compute_bound_percent 0 0 =
        min ((0 + timingEps) / (0 + timingEps) * 100) 100 ∧
      io_bound_percent 0 0 =
        min ((0 + timingEps) / (0 + timingEps) * 100) 100 ∧
      (0 : ℚ) + timingEps ≠ 0 ∧
      (0 ≤ compute_bound_percent 0 0 ∧ compute_bound_percent 0 0 ≤ 100) ∧
      (0 ≤ io_bound_percent 0 0 ∧ io_bound_percent 0 0 ≤ 100) ∧
      ∃ l f i : ℚ, 0 ≤ l ∧ 0 ≤ f ∧ 0 ≤ i ∧
        compute_bound_percent l i + io_bound_percent f i ≠ 100) :=
  ⟨le_refl 0, stats_percents_clamped 0 0 0 (le_refl 0) (le_refl 0) (le_refl 0)⟩

/-! ### Class registration (`learner_registry`, `LearnerMeta`,
`learnerFactory`, base.py lines 71-83) -/

/-- A learner class, identified by its `__name__` and an object identity
(so that two distinct class objects with the same name are distinct
values). -/
structure LearnerClass where
  name : String
  id : Nat
  deriving DecidableEq, Repr

/-- The module-level `learner_registry` dict, name → class. -/
def LearnerRegistry : Type := String → Option LearnerClass

/-- `learner_registry = {}` (base.py line 71). -/
def learner_registry_empty : LearnerRegistry := fun _ => none

/-- `register_learner` (base.py lines 73-74):
`learner_registry[target_class.__name__] = target_class` — a plain dict
assignment, so a later class with the same name silently overwrites the
earlier entry. -/
def register_learner (reg : LearnerRegistry) (target_class : LearnerClass) :
    LearnerRegistry :=
  fun n => if n = target_class.name then some target_class else reg n

/-- `learnerFactory` (base.py lines 76-77):
`return learner_registry[learner_name]` (`none` models `KeyError`). -/
def learnerFactory (reg : LearnerRegistry) (learner_name : String) :
    Option LearnerClass :=
  reg learner_name

/-- `LearnerMeta.__new__` (base.py lines 79-83): creating any class whose
metaclass is `LearnerMeta` (so `LearnerCore`, `Learner` and every
subclass) first builds the class object, then — as a side effect of the
class declaration itself — registers it, and returns it. The result
pairs the new class object with the updated registry. -/
def LearnerMeta.new (reg : LearnerRegistry) (cls : LearnerClass) :
    LearnerClass × LearnerRegistry :=
  (cls, register_learner reg cls)

/-- C10: declaring a class `c` with metaclass `LearnerMeta` registers it
in the registry under `c.name`, and `learnerFactory c.name` returns `c`
itself (round-trip); if a class `c'` of the same name was declared
earlier, the later declaration silently overwrites its entry, and the
earlier class object is no longer reachable by name. -/
theorem learner_registration_roundtrip (reg : LearnerRegistry)
    (c c' : LearnerClass) (hname : c'.name = c.name) :
    learnerFactory (LearnerMeta.new reg c).2 c.name = some c ∧
    learnerFactory (LearnerMeta.new (LearnerMeta.new reg c').2 c).2 c'.name
      = some c := by
  constructor
  · simp [learnerFactory, LearnerMeta.new, register_learner]
  · simp [learnerFactory, LearnerMeta.new, register_learner, hname]

/-- Two class objects with the same name `"DDPGLearner"` declared one
after the other. -/
def ddpgOld : LearnerClass := { name := "DDPGLearner", id := 0 }

def ddpgNew : LearnerClass := { name := "DDPGLearner", id := 1 }

/-- Witness for C10: declaring `ddpgOld` then `ddpgNew` (same name) in an
empty registry leaves the factory returning `ddpgNew`. -/
theorem learner_registration_roundtrip_witness :
    ddpgOld.name = ddpgNew.name ∧
    (learnerFactory (LearnerMeta.new learner_registry_empty ddpgNew).2
        ddpgNew.name = some ddpgNew ∧
      learnerFactory
        (LearnerMeta.new
          (LearnerMeta.new learner_registry_empty ddpgOld).2 ddpgNew).2
        ddpgOld.name = some ddpgNew) :=
  ⟨rfl, learner_registration_roundtrip learner_registry_empty ddpgNew
    ddpgOld rfl⟩

end Surreal
